import Mathlib

/-!
Verification of the plsr deployment orchestrator's configuration-resolution,
migration-ledger, deletion-gate, port-resolution and pull-verification logic.

The config file is read by regex scraping in the source (`run_local.py`,
`db_migrate.py`, `build.py`, `helm_release.py`).  We model a config document
as a list of newline-terminated lines (each list element is one line's
content without its terminating newline; the model therefore covers exactly
the documents that end in a newline, which is what every extraction regex
`(?:[ \t].*\n)+` assumes anyway).  The key/value and block extraction
functions below are operational renderings of the Python regexes, restricted
to single-line matches (a `key:` line carrying its value on the same line);
each doc comment quotes the regex it renders.
-/

namespace Plsr

/-- A config document: the list of its newline-terminated lines. -/
abbrev Cfg := List String

/-- Environment variables, as `os.getenv`: absent or a string. -/
abbrev EnvVars := String → Option String

/-- The single-quote character, written via its code point. -/
def squoteChar : Char := Char.ofNat 39

/-- The double-quote character, written via its code point. -/
def dquoteChar : Char := Char.ofNat 34

/-- Horizontal whitespace inside one line (Python `\s` minus the newline,
which cannot occur inside a line of our line-list model). -/
def isWS (c : Char) : Bool := c = ' ' || c = '\t' || c = '\r'

/-- Whitespace for Python's `str.strip()`. -/
def isPyWS (c : Char) : Bool := c = ' ' || c = '\t' || c = '\r' || c = '\n'

def dropWS (cs : List Char) : List Char := cs.dropWhile isWS

def trimWS (cs : List Char) : List Char :=
  ((cs.dropWhile isWS).reverse.dropWhile isWS).reverse

/-- Python `s.strip()`. -/
def pyStrip (s : String) : String :=
  (((s.toList.dropWhile isPyWS).reverse.dropWhile isPyWS).reverse).asString

/-- Python `s.rstrip("/")`. -/
def rstripSlash (s : String) : String :=
  ((s.toList.reverse.dropWhile (· = '/')).reverse).asString

/-- Python `s.lower()` (character-wise). -/
def pyLower (s : String) : String := (s.toList.map Char.toLower).asString

def isQuoteChar (c : Char) : Bool := c = squoteChar || c = dquoteChar

/-- Python truthiness filter on an optional string: an empty string counts
as absent (`if v:`). -/
def pyTruthy : Option String → Option String
  | some s => if s = "" then none else some s
  | none => none

/-- Strip `key` as a case-insensitive prefix, returning the remainder. -/
def stripPrefixCI : List Char → List Char → Option (List Char)
  | [], cs => some cs
  | _ :: _, [] => none
  | k :: ks, c :: cs => if k.toLower = c.toLower then stripPrefixCI ks cs else none

/-- Strip `key` as a case-sensitive prefix, returning the remainder. -/
def stripPrefixCS : List Char → List Char → Option (List Char)
  | [], cs => some cs
  | _ :: _, [] => none
  | k :: ks, c :: cs => if k = c then stripPrefixCS ks cs else none

/-- Operational rendering, on one line, of the key/value regex
`(?mi)^\s*KEY\s*:\s*['"]?([^#\r\n'"]+)['"]?\s*(?:#.*)?$`
used by `_kv_top` and `_kv_from_block` in `run_local.py`, `db_migrate.py`
and (same pattern) the other modules.  Returns the captured group after
Python `.strip()` (so `some ""` arises from a key whose value is only
whitespace or a comment, which every caller then treats as falsy). -/
def kvLine (key : String) (line : String) : Option String :=
  match stripPrefixCI key.toList (dropWS line.toList) with
  | none => none
  | some rest0 =>
    match dropWS rest0 with
    | ':' :: rest2 =>
      let ws1 := rest2.takeWhile isWS
      let r := rest2.dropWhile isWS
      match r with
      | [] => if ws1.isEmpty then none else some ""
      | c :: _ =>
        if c = '#' then (if ws1.isEmpty then none else some "")
        else
          let r2 := if isQuoteChar c then r.tail else r
          let v := r2.takeWhile (fun d => d ≠ '#' && !(isQuoteChar d) && d ≠ '\r')
          if v.isEmpty then none
          else
            let tl := r2.drop v.length
            match tl with
            | [] => some (trimWS v).asString
            | d :: tl2 =>
              if d = '#' then some (trimWS v).asString
              else if isQuoteChar d then
                match dropWS tl2 with
                | [] => some (trimWS v).asString
                | e :: _ => if e = '#' then some (trimWS v).asString else none
              else
                match dropWS tl with
                | [] => some (trimWS v).asString
                | e :: _ => if e = '#' then some (trimWS v).asString else none
    | _ => none

/-- First line matching the key/value regex wins (`re.search` with `(?m)`),
as in `_kv_top` (over the whole document) and `_kv_from_block` (over an
extracted block). -/
def kvLookup (key : String) : Cfg → Option String
  | [] => none
  | l :: ls =>
    match kvLine key l with
    | some v => some v
    | none => kvLookup key ls

/-- Operational rendering, on one line, of the looser pattern
`(?mi)^\s*KEY\s*:\s*["']?([^"']+?)["']?\s*$` used for the explicit top-level
`ECR:` key in `helm_release.py._ecr_root` and for `name`/`version`/`ECR` in
`build.py` (the `name`/`version` variants lack the `i` flag; the flag is
passed here).  Unlike `kvLine` the captured value may contain `#`.
Returns the group after Python `.strip()`. -/
def kvLineLoose (ci : Bool) (key : String) (line : String) : Option String :=
  let strip := if ci then stripPrefixCI else stripPrefixCS
  match strip key.toList (dropWS line.toList) with
  | none => none
  | some rest0 =>
    match dropWS rest0 with
    | ':' :: rest2 =>
      match rest2.dropWhile isWS with
      | [] => none
      | c :: _ =>
        let r1 := rest2.dropWhile isWS
        let r2 := if isQuoteChar c then r1.tail else r1
        let core := r2.takeWhile (fun d => !(isQuoteChar d))
        if core.isEmpty then none
        else
          match r2.drop core.length with
          | [] => some (trimWS core).asString
          | _ :: tl2 => if (dropWS tl2).isEmpty then some (trimWS core).asString else none
    | _ => none

/-- First line matching the loose key/value regex wins. -/
def kvLookupLoose (ci : Bool) (key : String) : Cfg → Option String
  | [] => none
  | l :: ls =>
    match kvLineLoose ci key l with
    | some v => some v
    | none => kvLookupLoose ci key ls

/-- Does this line match `^\s*SECTION\s*:\s*$` (a block header line: the
section name, case-sensitively, with only whitespace after the colon)? -/
def isHeaderLine (sec : String) (line : String) : Bool :=
  match stripPrefixCS sec.toList (dropWS line.toList) with
  | none => false
  | some rest =>
    match dropWS rest with
    | ':' :: r2 => (r2.dropWhile isWS).isEmpty
    | _ => false

/-- Does the line start with a space or tab (`[ \t]`)? -/
def startsIndent (l : String) : Bool :=
  match l.toList with
  | c :: _ => c = ' ' || c = '\t'
  | [] => false

/-- Is the line whitespace-only? -/
def isBlankLine (l : String) : Bool := l.toList.all isWS

/-- After a header line, the captured block begins at the next line that
starts with a space or tab, skipping whitespace-only lines; if a non-blank
unindented line comes first, this header occurrence does not match. -/
def blockFrom : Cfg → Option Cfg
  | [] => none
  | l :: ls =>
    if startsIndent l then some (l :: ls)
    else if isBlankLine l then blockFrom ls
    else none

/-- Operational rendering of `_extract_block`:
`re.search(r"(?ms)^\s*SECTION\s*:\s*\n(?P<blk>(?:[ \t].*\n)+)", text)`.
Because the pattern carries the `s` flag, `.` matches newlines, so the
captured block runs from the first indented line after the header all the
way to the final newline of the document — not just the indented run.
(Verified against CPython `re`; leading whitespace-only lines of the true
capture are dropped here, which no key lookup can observe.)  Returns `[]`
when no header with an indented follower exists (the Python function
returns `""`). -/
def extractBlock : Cfg → String → Cfg
  | [], _ => []
  | l :: ls, sec =>
    if isHeaderLine sec l then
      match blockFrom ls with
      | some blk => blk
      | none => extractBlock ls sec
    else extractBlock ls sec

/-- Rendering of `_extract_env_block` / `_env_block`: extract the
`environments` block, then the named environment's block inside it. -/
def extractEnvBlock (text : Cfg) (envName : String) : Cfg :=
  extractBlock (extractBlock text "environments") envName

/-! ## Flavor detection (`run_local.py._detect_flavor`, and the identical
logic in `build.py` and `helm_release.py`) -/

/-- The recognized database aliases of `_detect_flavor`. -/
def dbFlavorAliases : List String := ["mariadb", "mysql", "db-mariadb", "db_mysql"]

/-- Rendering of `_detect_flavor`: look up `flavor` in the extracted
`service` block (`fl = _kv_from_block(svc, "flavor") or ""`), lower-case and
strip it, and classify. -/
def detectFlavor (text : Cfg) : String :=
  let fl0 := (kvLookup "flavor" (extractBlock text "service")).getD ""
  let fl := pyStrip (pyLower fl0)
  if dbFlavorAliases.contains fl then "db-mariadb" else "python-app"

/-! ## Registry-root resolution -/

/-- Match the private-registry host pattern
`([0-9]{12}\.dkr\.ecr\.[a-z0-9-]+\.amazonaws\.com)` at the head of the
character list. -/
def matchPrivAt (cs : List Char) : Option String :=
  let ds := cs.take 12
  if ds.length = 12 && ds.all Char.isDigit then
    match stripPrefixCS ".dkr.ecr.".toList (cs.drop 12) with
    | some r1 =>
      let region := r1.takeWhile (fun c => c.isLower || c.isDigit || c = '-')
      if region.isEmpty then none
      else
        match stripPrefixCS ".amazonaws.com".toList (r1.drop region.length) with
        | some _ =>
          some (ds ++ ".dkr.ecr.".toList ++ region ++ ".amazonaws.com".toList).asString
        | none => none
    | none => none
  else none

/-- Match the public-registry host pattern `(public\.ecr\.aws/[A-Za-z0-9-]+)`
at the head of the character list. -/
def matchPubAt (cs : List Char) : Option String :=
  match stripPrefixCS "public.ecr.aws/".toList cs with
  | some r1 =>
    let repo := r1.takeWhile (fun c => c.isAlpha || c.isDigit || c = '-')
    if repo.isEmpty then none
    else some ("public.ecr.aws/".toList ++ repo).asString
  | none => none

/-- Leftmost match of a head-matcher within one line. -/
def scanLine (m : List Char → Option String) : List Char → Option String
  | [] => none
  | c :: rest =>
    match m (c :: rest) with
    | some r => some r
    | none => scanLine m rest

/-- Leftmost match of a head-matcher in the document (neither host pattern
can span a newline, so line-by-line scanning is exact). -/
def scanText (m : List Char → Option String) : Cfg → Option String
  | [] => none
  | l :: ls =>
    match scanLine m l.toList with
    | some r => some r
    | none => scanText m ls

/-- `re.search` for the private ECR host pattern over the whole document
(`_PRIV_ECR_HOST` in `run_local.py`; `build.py` and `helm_release.py` use
the same pattern, the latter with `re.I`, which coincides on lower-case
hosts). -/
def scanPrivHost (text : Cfg) : Option String := scanText matchPrivAt text

/-- `re.search` for the public ECR host pattern over the whole document. -/
def scanPubHost (text : Cfg) : Option String := scanText matchPubAt text

/-- Rendering of `run_local.py._discover_ecr_root`: `environments.<env>.ECR`,
then top-level `ECR`, then the private host pattern, then the public one.
The function reads no environment variables. -/
def discoverEcrRoot (text : Cfg) (envName : String) : Option String :=
  match pyTruthy (kvLookup "ECR" (extractEnvBlock text envName)) with
  | some v => some (rstripSlash (pyStrip v))
  | none =>
    match pyTruthy (kvLookup "ECR" text) with
    | some v => some (rstripSlash (pyStrip v))
    | none =>
      match scanPrivHost text with
      | some v => some (rstripSlash (pyStrip v))
      | none =>
        match scanPubHost text with
        | some v => some (rstripSlash (pyStrip v))
        | none => none

/-- The environment-variable names scanned by `helm_release.py._ecr_root`
and `build.py._read_fields_from_config_yaml`. -/
def ecrEnvVarNames : List String := ["ECR", "ECR_URL", "AWS_ECR", "AWS_ECR_URL"]

/-- The loop `for var in (...): v = os.getenv(var); if v and v.strip():
return v.strip().rstrip("/")` of `helm_release.py._ecr_root`. -/
def firstEnvVar (envv : EnvVars) : List String → Option String
  | [] => none
  | n :: ns =>
    match envv n with
    | some v => if pyStrip v ≠ "" then some (rstripSlash (pyStrip v)) else firstEnvVar envv ns
    | none => firstEnvVar envv ns

/-- Rendering of `helm_release.py._ecr_root`: environment variables first,
then an explicit top-level `ECR:` line (loose pattern, which may capture an
empty value that is returned as-is), then the host patterns.  The function
never reads `environments.<env>.ECR`. -/
def ecrRootHelm (envv : EnvVars) (text : Cfg) : Option String :=
  match firstEnvVar envv ecrEnvVarNames with
  | some v => some v
  | none =>
    match kvLookupLoose true "ECR" text with
    | some v => some (rstripSlash v)
    | none =>
      match scanPrivHost text with
      | some v => some (rstripSlash (pyStrip v))
      | none =>
        match scanPubHost text with
        | some v => some (rstripSlash (pyStrip v))
        | none => none

/-- Python `or` chain over `os.getenv` results: first non-empty value. -/
def firstTruthyVar (envv : EnvVars) : List String → Option String
  | [] => none
  | n :: ns =>
    match envv n with
    | some v => if v ≠ "" then some v else firstTruthyVar envv ns
    | none => firstTruthyVar envv ns

/-- Rendering of the ECR part of `build.py._read_fields_from_config_yaml`:
top-level `ECR:` line (loose pattern) first; if that is falsy, the first
non-empty environment variable (stripped, `/`-stripped — which may become
empty again); if still falsy, the host patterns; the last falsy value is
returned unchanged (so `some ""` can propagate out, as in the source). -/
def buildEcr (envv : EnvVars) (text : Cfg) : Option String :=
  let ecrA := (kvLookupLoose true "ECR" text).map rstripSlash
  let ecrB :=
    if pyTruthy ecrA = none then
      match firstTruthyVar envv ecrEnvVarNames with
      | some ev => some (rstripSlash (pyStrip ev))
      | none => ecrA
    else ecrA
  if pyTruthy ecrB = none then
    match scanPrivHost text with
    | some v => some (rstripSlash (pyStrip v))
    | none =>
      match scanPubHost text with
      | some v => some (rstripSlash (pyStrip v))
      | none => ecrB
  else ecrB

/-- Registry cascade as WORDED by the specification (§4.3 and §8): a single
precedence `environments.<env>.ECR` → top-level `ECR` → environment
variables `ECR`/`ECR_URL`/`AWS_ECR`/`AWS_ECR_URL` → host-pattern scan.
This definition follows the spec's words, for comparison against the
resolvers actually implemented; no single source function implements it. -/
def claimedRegistryCascade (envv : EnvVars) (text : Cfg) (envName : String) : Option String :=
  match pyTruthy (kvLookup "ECR" (extractEnvBlock text envName)) with
  | some v => some (rstripSlash (pyStrip v))
  | none =>
    match pyTruthy (kvLookup "ECR" text) with
    | some v => some (rstripSlash (pyStrip v))
    | none =>
      match firstEnvVar envv ecrEnvVarNames with
      | some v => some v
      | none =>
        match scanPrivHost text with
        | some v => some (rstripSlash (pyStrip v))
        | none =>
          match scanPubHost text with
          | some v => some (rstripSlash (pyStrip v))
          | none => none

/-! ## Name/version identity resolution -/

/-- Python `a or b` on strings. -/
def pyOr (a b : String) : String := if a ≠ "" then a else b

/-- Rendering of `helm_release.py._name_version` and of the identical lines
`name = _kv_top(cfg, "name") or root.name; version = _kv_top(cfg, "version")
or "0.0.0"` in `run_local.py.auto_run`/`auto_stop`: top-level config keys
with fallback to the directory basename and `"0.0.0"`.  The project
manifest is not consulted. -/
def nameVersionFromCfg (text : Cfg) (rootName : String) : String × String :=
  ((pyTruthy (kvLookup "name" text)).getD rootName,
   (pyTruthy (kvLookup "version" text)).getD "0.0.0")

/-- The fields `app.py.read_app_metadata` reads from a parsed
`pyproject.toml`: `project.name`/`project.version` and
`tool.poetry.name`/`tool.poetry.version`, each defaulting to `""` when
absent (`data.get(...).get(..., "")`). -/
structure PyProject where
  projectName : String
  projectVersion : String
  poetryName : String
  poetryVersion : String
deriving DecidableEq

/-- Rendering of `app.py.read_app_metadata`: manifest `project` fields,
falling back to `poetry` fields, falling back to the directory basename and
`"0.0.0"`.  `none` stands for a missing or unparseable `pyproject.toml`
(all fields then behave as `""`).  Config keys are not consulted. -/
def readAppMetadata (mp : Option PyProject) (dirName : String) : String × String :=
  let p := mp.getD ⟨"", "", "", ""⟩
  let name := pyOr (pyOr p.projectName "") p.poetryName
  let version := pyOr (pyOr p.projectVersion "") p.poetryVersion
  (pyOr name dirName, pyOr version "0.0.0")

/-- Identity cascade as WORDED by the claim (spec §4.2): top-level config
keys, otherwise the manifest's name/version fields, otherwise the directory
basename and `"0.0.0"`.  This definition follows the spec's words, for
comparison; no source function implements all three levels. -/
def claimedNameVersion (text : Cfg) (mp : Option PyProject) (dirName : String) :
    String × String :=
  let p := mp.getD ⟨"", "", "", ""⟩
  ((pyTruthy (kvLookup "name" text)).getD (pyOr (pyOr p.projectName p.poetryName) dirName),
   (pyTruthy (kvLookup "version" text)).getD
     (pyOr (pyOr p.projectVersion p.poetryVersion) "0.0.0"))

/-! ## DATABASE_URL resolution (`db_migrate.py._db_url_from_config` and the
guard at the top of `migrate`) -/

/-- Stage 1 of `_db_url_from_config`: `ev = os.getenv("DATABASE_URL"); if
ev and ev.strip(): return ev.strip()`. -/
def dbUrlStageEnv (envv : EnvVars) : Option String :=
  match envv "DATABASE_URL" with
  | some ev => if pyStrip ev ≠ "" then some (pyStrip ev) else none
  | none => none

/-- Stage 2: `if env_map.get("DATABASE_URL"): return
env_map["DATABASE_URL"].strip()` — `dotenv` models the map loaded by
`_load_dotenv_map` from the first existing of `.env.<env>`, `env.<env>`,
`.env`. -/
def dbUrlStageDotenv (dotenv : String → Option String) : Option String :=
  match dotenv "DATABASE_URL" with
  | some d => if d ≠ "" then some (pyStrip d) else none
  | none => none

/-- Stage 3: `blk = _env_block(text, env_name); if blk: v =
_kv_from_block(blk, "DATABASE_URL"); if v: return v.strip()`. -/
def dbUrlStageEnvBlock (text : Cfg) (envName : String) : Option String :=
  let blk := extractEnvBlock text envName
  if blk = [] then none
  else
    match pyTruthy (kvLookup "DATABASE_URL" blk) with
    | some v => some (pyStrip v)
    | none => none

/-- Stage 4: `v = _kv_from_block(_extract_block(text, "default"),
"DATABASE_URL"); if v: return v.strip()`. -/
def dbUrlStageDefault (text : Cfg) : Option String :=
  match pyTruthy (kvLookup "DATABASE_URL" (extractBlock text "default")) with
  | some v => some (pyStrip v)
  | none => none

/-- Stage 5: `v = _kv_top(text, "DATABASE_URL"); if v: return v.strip()`. -/
def dbUrlStageTop (text : Cfg) : Option String :=
  match pyTruthy (kvLookup "DATABASE_URL" text) with
  | some v => some (pyStrip v)
  | none => none

/-- Rendering of `db_migrate.py._db_url_from_config`: the source is a
sequence of early-return blocks, here the left-biased composition of the
five stages. -/
def dbUrlFromConfig (envv : EnvVars) (dotenv : String → Option String)
    (text : Cfg) (envName : String) : Option String :=
  match dbUrlStageEnv envv with
  | some u => some u
  | none =>
    match dbUrlStageDotenv dotenv with
    | some u => some u
    | none =>
      match dbUrlStageEnvBlock text envName with
      | some u => some u
      | none =>
        match dbUrlStageDefault text with
        | some u => some u
        | none => dbUrlStageTop text

/-- The guard in `db_migrate.py.migrate`: `url = _db_url_from_config(...);
if not url: ...; return 2` — a missing (or empty) connection string is a
configuration error with exit code 2, not an exception. -/
def migrateResolveUrl (envv : EnvVars) (dotenv : String → Option String)
    (text : Cfg) (envName : String) : Except Nat String :=
  match dbUrlFromConfig envv dotenv text envName with
  | none => .error 2
  | some u => if u = "" then .error 2 else .ok u

/-! ## Root password resolution -/

/-- Rendering of `db_migrate.py._root_password`: `environments.<env>.root_pw`
if truthy (stripped), else `dev.root.password` (the `root:` sub-block of the
`dev` block) if truthy (stripped), else `"Password1"`. -/
def rootPasswordMigrate (text : Cfg) (envName : String) : String :=
  let blk := extractEnvBlock text envName
  let v := if blk = [] then none else kvLookup "root_pw" blk
  match pyTruthy v with
  | some s => pyStrip s
  | none =>
    let devBlk := extractBlock text "dev"
    let sub := if devBlk = [] then [] else extractBlock devBlk "root"
    match pyTruthy (kvLookup "password" sub) with
    | some s => pyStrip s
    | none => "Password1"

/-- Rendering of `run_local.py._env_root_password`: `environments.<env>.root_pw`
when present and truthy, stripped; `None` otherwise. -/
def envRootPassword (text : Cfg) (envName : String) : Option String :=
  let blk := extractEnvBlock text envName
  if blk = [] then none
  else
    match kvLookup "root_pw" blk with
    | some v => if v ≠ "" then some (pyStrip v) else none
    | none => none

/-- Rendering of `run_local.py._dev_root_password`: extract the `dev` block,
then its `root:` sub-block; when there is NO `root:` sub-block the lookup
falls back to the WHOLE `dev` block (`blk = m.group("blk") if m else dev`),
so a bare `dev.password` key is also picked up. -/
def devRootPassword (text : Cfg) : Option String :=
  let dev := extractBlock text "dev"
  let sub := extractBlock dev "root"
  kvLookup "password" (if sub = [] then dev else sub)

/-- The password chain of `run_local.py.auto_run` (used for the local
database container environment when no `MARIADB_ROOT_PASSWORD` /
`MYSQL_ROOT_PASSWORD` override is passed):
`pw = _env_root_password(cfg, env) or _dev_root_password(cfg) or "Password1"`. -/
def autoRunRootPw (text : Cfg) (envName : String) : String :=
  match pyTruthy (envRootPassword text envName) with
  | some s => s
  | none =>
    match pyTruthy (devRootPassword text) with
    | some s => s
    | none => "Password1"

/-- Rendering of the root-password component of
`helm_release.py._db_env_values`: `environments.<env>.root_pw`, with
fallback `root_pw = _kv_from_block(_extract_block(dev, "root"), "password")
or root_pw` guarded by the `dev` block being non-empty, and final default
`root_pw or "Password1"`. -/
def dbEnvRootPwHelm (text : Cfg) (envName : String) : String :=
  let envs := extractBlock text "environments"
  let blk := if envs = [] then [] else extractBlock envs envName
  let rp0 := kvLookup "root_pw" blk
  let rp1 :=
    if pyTruthy rp0 = none then
      let dev := extractBlock text "dev"
      if dev = [] then rp0
      else
        let rootB := extractBlock dev "root"
        match pyTruthy (kvLookup "password" rootB) with
        | some _ => kvLookup "password" rootB
        | none => rp0
    else rp0
  match pyTruthy rp1 with
  | some s => s
  | none => "Password1"

/-! ## Data-directory deletion gate (`run_local.py._allowed_delete_host_dir`
and the data-directory handling of `auto_stop`) -/

/-- A fully resolved absolute path, as its list of components (the image of
`Path(...).resolve()`; `p.is_relative_to(q)` is then component-prefix,
including equality). -/
abbrev AbsPath := List String

/-- `run_local.py._default_local_db_dir`: `Path.home() / "dev" / "plsr" /
"local" / "db"`. -/
def defaultLocalDbDir (home : AbsPath) : AbsPath := home ++ ["dev", "plsr", "local", "db"]

/-- Rendering of `_allowed_delete_host_dir(host_dir, root, cfg_text,
env_name)`.  `cfgDataDir` is the resolved value of
`_host_data_dir_from_config` (the configured `environments.<env>.data_dir`),
already turned into an absolute path, or `none`.  The loop `for base in
bases: if host_dir == base or host_dir.is_relative_to(base): return True`
is the `any`; then `~/dev/plsr` is checked. -/
def allowedDeleteHostDir (home root : AbsPath) (cfgDataDir : Option AbsPath)
    (hostDir : AbsPath) : Bool :=
  let bases := [defaultLocalDbDir home, root ++ [".plsr", "data", "mariadb"]] ++ cfgDataDir.toList
  if bases.any (fun base => hostDir == base || base.isPrefixOf hostDir) then true
  else (home ++ ["dev", "plsr"]).isPrefixOf hostDir

/-- The full allow-list the gate compares against: the default local db dir,
`<root>/.plsr/data/mariadb`, the configured data dir (when set), and
`<home>/dev/plsr`. -/
def allowedDeleteBases (home root : AbsPath) (cfgDataDir : Option AbsPath) : List AbsPath :=
  [defaultLocalDbDir home, root ++ [".plsr", "data", "mariadb"]] ++ cfgDataDir.toList
    ++ [home ++ ["dev", "plsr"]]

/-- What `auto_stop` does with the data directory. -/
inductive DataDirAction where
  | deleted
  | refused
  | notFound
  | skippedDryRun
  | notApplicable
deriving DecidableEq

/-- Rendering of the data-directory part of `run_local.py.auto_stop`:
`host_dir` is computed only for the database flavor without `--keep-data`;
under `--dry-run` only the plan is printed; otherwise `shutil.rmtree` runs
only when the directory exists AND `_allowed_delete_host_dir` returns true
(`allowed` is that gate's value); a non-allow-listed path is refused with a
warning. -/
def autoStopDataAction (flavorIsDb keepData dryRun hostDirExists allowed : Bool) :
    DataDirAction :=
  if !flavorIsDb || keepData then .notApplicable
  else if dryRun then .skippedDryRun
  else if hostDirExists then (if allowed then .deleted else .refused)
  else .notFound

/-! ## Migration ledger loop (`db_migrate.py.migrate`, per-file loop over
`_list_sql_files`, with `_already_applied` snapshot) -/

/-- Result of the per-file migration loop: the ledger rows inserted by
`_insert_ledger`, the files whose SQL was executed by `_exec_sql_file`, and
the exit code `migrate` returns (0 on success). -/
structure MigOutcome where
  inserted : List (String × String)
  executed : List String
  code : Nat
deriving DecidableEq

/-- Rendering of the loop `for path in files:` in `db_migrate.py.migrate`
(lines 356–381).  `files` is `_list_sql_files` paired with `_file_checksum`
(name, checksum), in lexicographic filename order; `applied` is the
`_already_applied` snapshot, read once before the loop and never re-read;
`execr`/`insr` give the exit codes of `_exec_sql_file` and `_insert_ledger`
for each file.  Matching checksum → skip; differing checksum → abort with
exit code 1; absent → execute, then insert (a failed insert records no
row). The loop never updates or deletes existing ledger rows. -/
def migrateLoop (execr insr : String → Nat) (applied : String → Option String) :
    List (String × String) → MigOutcome
  | [] => ⟨[], [], 0⟩
  | (n, c) :: rest =>
    match applied n with
    | some c0 =>
      if c0 = c then migrateLoop execr insr applied rest
      else ⟨[], [], 1⟩
    | none =>
      let e := execr n
      if e ≠ 0 then ⟨[], [n], e⟩
      else
        let i := insr n
        if i ≠ 0 then ⟨[], [n], i⟩
        else
          let r := migrateLoop execr insr applied rest
          ⟨(n, c) :: r.inserted, n :: r.executed, r.code⟩

/-- The persisted ledger (`schema_migrations`): rows `(name, checksum)`. -/
abbrev Ledger := List (String × String)

/-- The `_already_applied` view of a ledger: name → checksum (the table's
primary key makes names unique, so first match is the match). -/
def lookupLedger (L : Ledger) (n : String) : Option String :=
  (L.find? (fun p => p.1 == n)).map Prod.snd

/-! ## Host-port resolution (`run_local.py._find_free_port` and the port
block of `auto_run`) -/

/-- The scan `for p in range(start, start + max(1, attempts))` of
`_find_free_port`, with `k` remaining attempts. -/
def findFreePortAux (free : Nat → Bool) : Nat → Nat → Option Nat
  | _, 0 => none
  | p, k + 1 => if free p then some p else findFreePortAux free (p + 1) k

/-- Rendering of `run_local.py._find_free_port(start, attempts)`: the first
port in `[start, start + max 1 attempts)` on which a bind succeeds (`free`
models `_is_port_free`). -/
def findFreePort (free : Nat → Bool) (start attempts : Nat) : Option Nat :=
  findFreePortAux free start (max 1 attempts)

/-- Outcome of the host-port block of `auto_run`. -/
inductive PortOutcome where
  /-- Explicit `-p` mappings were given; the resolver is skipped. -/
  | useMapping
  /-- The desired host port is free and used unchanged. -/
  | usePort (p : Nat)
  /-- Occupied and `PLSR_STRICT_PORT` set: exit 1 after an error and
  actionable tips. -/
  | strictFail
  /-- Occupied and no free port within the 50-attempt bound: exit 1 after an
  error (never silent). -/
  | noFreeFail
  /-- Occupied: the replacement port is used after a warning naming it. -/
  | shifted (p : Nat)
deriving DecidableEq

/-- Rendering of the port block of `run_local.py.auto_run` (lines 373–388):
with no explicit mapping, an occupied desired port either fails under the
strict flag, or is replaced by `_find_free_port(host_port + 1, attempts=50)`
with a warning, failing when none is found. -/
def resolveHostPort (free : Nat → Bool) (portOverrides strict : Bool) (hostPort : Nat) :
    PortOutcome :=
  if portOverrides then .useMapping
  else if free hostPort then .usePort hostPort
  else if strict then .strictFail
  else
    match findFreePort free (hostPort + 1) 50 with
    | none => .noFreeFail
    | some p => .shifted p

/-! ## Cluster pull verification
(`helm_release.py._verify_namespace_can_pull_image`, poll loop) -/

/-- One poll observation: `kubectl get pod -o json` failed or parsed to
nothing; `status.containerStatuses` empty; or the first container status
with its `imageID` and `state.waiting.reason` fields (each `or ""`).  The
source reads no readiness or phase field. -/
inductive PollObs where
  | noPod
  | noStatuses
  | status (imageID : String) (waitingReason : String)
deriving DecidableEq

/-- The terminal waiting reasons that short-circuit the poll loop. -/
def terminalReasons : List String :=
  ["ErrImagePull", "ImagePullBackOff", "RegistryUnavailable", "InvalidImageName",
   "Unauthorized", "Forbidden"]

/-- Result of the poll loop. -/
inductive PullResult where
  /-- `imageID` non-empty: return 0 immediately. -/
  | success
  /-- A terminal waiting reason: break out and return 1. -/
  | terminalFailure (reason : String)
  /-- The deadline passed with no decision: return 1. -/
  | timeout
deriving DecidableEq

/-- Rendering of the poll loop of `_verify_namespace_can_pull_image`: the
list is the sequence of observations made before the deadline (an exhausted
list is the timeout).  A non-empty `imageID` is immediate success; an empty
`imageID` with a stripped waiting reason in the terminal set breaks out as
a definite failure; anything else polls again. -/
def pullCheckLoop : List PollObs → PullResult
  | [] => .timeout
  | .noPod :: rest => pullCheckLoop rest
  | .noStatuses :: rest => pullCheckLoop rest
  | .status iid reason :: rest =>
    if iid ≠ "" then .success
    else if terminalReasons.contains (pyStrip reason) then .terminalFailure (pyStrip reason)
    else pullCheckLoop rest

/-- The exit code `_verify_namespace_can_pull_image` returns for each poll
result. -/
def pullResultCode : PullResult → Nat
  | .success => 0
  | .terminalFailure _ => 1
  | .timeout => 1

/-- An observation that neither succeeds nor terminally fails (the loop
keeps polling through it). -/
def nondecidingObs : PollObs → Bool
  | .noPod => true
  | .noStatuses => true
  | .status iid reason => iid = "" && !terminalReasons.contains (pyStrip reason)

/-! ## Helper lemmas -/

theorem pyTruthy_eq_some {o : Option String} {v : String} (h : pyTruthy o = some v) :
    o = some v ∧ v ≠ "" := by
  cases o with
  | none => simp [pyTruthy] at h
  | some s =>
    by_cases hs : s = ""
    · simp [pyTruthy, hs] at h
    · simp only [pyTruthy, hs, if_false, Option.some.injEq] at h
      subst h
      exact ⟨rfl, hs⟩

theorem pyTruthy_eq_none {o : Option String} (h : pyTruthy o = none) :
    o = none ∨ o = some "" := by
  cases o with
  | none => exact Or.inl rfl
  | some s =>
    by_cases hs : s = ""
    · exact Or.inr (by rw [hs])
    · simp [pyTruthy, hs] at h

theorem kvLookup_nil (key : String) : kvLookup key [] = none := rfl

theorem pullCheckLoop_append_nondeciding (pre rest : List PollObs)
    (hpre : ∀ o ∈ pre, nondecidingObs o = true) :
    pullCheckLoop (pre ++ rest) = pullCheckLoop rest := by
  induction pre with
  | nil => rfl
  | cons o pre ih =>
    have ho := hpre o (List.mem_cons_self _ _)
    have hrest : ∀ o ∈ pre, nondecidingObs o = true :=
      fun o' ho' => hpre o' (List.mem_cons_of_mem _ ho')
    cases o with
    | noPod => simpa [pullCheckLoop] using ih hrest
    | noStatuses => simpa [pullCheckLoop] using ih hrest
    | status iid reason =>
      simp only [nondecidingObs, Bool.and_eq_true, Bool.not_eq_true', decide_eq_true_eq] at ho
      have ho2 : pyStrip reason ∉ terminalReasons := by simpa using ho.2
      simp [pullCheckLoop, ho.1, ho2, ih hrest]

theorem findFreePortAux_eq_some (free : Nat → Bool) :
    ∀ (k p m : Nat), p ≤ m → m < p + k → free m = true →
      (∀ q, p ≤ q → q < m → free q = false) →
      findFreePortAux free p k = some m := by
  intro k
  induction k with
  | zero => intro p m h1 h2 _ _; omega
  | succ k ih =>
    intro p m h1 h2 hm hbelow
    by_cases hp : free p = true
    · have hpm : p = m := by
        by_contra hne
        have : free p = false := hbelow p (Nat.le_refl p) (by omega)
        rw [this] at hp; exact Bool.false_ne_true hp
      subst hpm
      simp [findFreePortAux, hp]
    · have hpm : p ≠ m := fun h => hp (h ▸ hm)
      have : findFreePortAux free (p + 1) k = some m :=
        ih (p + 1) m (by omega) (by omega) hm (fun q hq1 hq2 => hbelow q (by omega) hq2)
      simp [findFreePortAux, hp, this]

theorem findFreePortAux_eq_none (free : Nat → Bool) :
    ∀ (k p : Nat), (∀ q, p ≤ q → q < p + k → free q = false) →
      findFreePortAux free p k = none := by
  intro k
  induction k with
  | zero => intro p _; rfl
  | succ k ih =>
    intro p h
    have hp : free p = false := h p (Nat.le_refl p) (by omega)
    simp [findFreePortAux, hp]
    exact ih (p + 1) (fun q hq1 hq2 => h q (by omega) (by omega))

theorem autoStopDataAction_deleted {flavorIsDb keepData dryRun hostDirExists allowed : Bool}
    (h : autoStopDataAction flavorIsDb keepData dryRun hostDirExists allowed = .deleted) :
    allowed = true := by
  unfold autoStopDataAction at h
  split at h
  · exact absurd h (by simp)
  · split at h
    · exact absurd h (by simp)
    · split at h
      · split at h
        · assumption
        · exact absurd h (by simp)
      · exact absurd h (by simp)

theorem isPrefixOf_self (l : AbsPath) : l.isPrefixOf l = true := by
  induction l with
  | nil => rfl
  | cons a l ih => simp [List.isPrefixOf, ih]

theorem allowedDeleteHostDir_eq (home root : AbsPath) (cfgDataDir : Option AbsPath)
    (hostDir : AbsPath) :
    allowedDeleteHostDir home root cfgDataDir hostDir =
      ((([defaultLocalDbDir home, root ++ [".plsr", "data", "mariadb"]] ++ cfgDataDir.toList).any
          (fun base => hostDir == base || base.isPrefixOf hostDir))
        || (home ++ ["dev", "plsr"]).isPrefixOf hostDir) := by
  unfold allowedDeleteHostDir
  by_cases h : (([defaultLocalDbDir home, root ++ [".plsr", "data", "mariadb"]]
      ++ cfgDataDir.toList).any (fun base => hostDir == base || base.isPrefixOf hostDir)) = true
  · rw [if_pos h, h, Bool.true_or]
  · rw [if_neg h]
    rw [Bool.not_eq_true] at h
    rw [h, Bool.false_or]

theorem migrateLoop_append (execr insr : String → Nat) (applied : String → Option String)
    (pre post : List (String × String))
    (h : (migrateLoop execr insr applied pre).code = 0) :
    migrateLoop execr insr applied (pre ++ post) =
      ⟨(migrateLoop execr insr applied pre).inserted
          ++ (migrateLoop execr insr applied post).inserted,
       (migrateLoop execr insr applied pre).executed
          ++ (migrateLoop execr insr applied post).executed,
       (migrateLoop execr insr applied post).code⟩ := by
  induction pre with
  | nil => simp [migrateLoop]
  | cons nc pre ih =>
    obtain ⟨n, c⟩ := nc
    cases happ : applied n with
    | some c0 =>
      by_cases hc : c0 = c
      · have hcode : (migrateLoop execr insr applied pre).code = 0 := by
          simpa [migrateLoop, happ, hc] using h
        simp [migrateLoop, happ, hc, ih hcode]
      · exfalso
        simp [migrateLoop, happ, hc] at h
    | none =>
      by_cases he : execr n = 0
      · by_cases hi : insr n = 0
        · have hcode : (migrateLoop execr insr applied pre).code = 0 := by
            simpa [migrateLoop, happ, he, hi] using h
          simp [migrateLoop, happ, he, hi, ih hcode]
        · exfalso
          have h' := h
          simp [migrateLoop, happ, he, hi] at h'
      · exfalso
        have h' := h
        simp [migrateLoop, happ, he] at h'

theorem migrateLoop_executed_applied_none (execr insr : String → Nat)
    (applied : String → Option String) (fs : List (String × String)) (m : String)
    (h : m ∈ (migrateLoop execr insr applied fs).executed) : applied m = none := by
  induction fs with
  | nil => simp [migrateLoop] at h
  | cons nc fs ih =>
    obtain ⟨n, c⟩ := nc
    cases happ : applied n with
    | some c0 =>
      by_cases hc : c0 = c
      · rw [show migrateLoop execr insr applied ((n, c) :: fs)
            = migrateLoop execr insr applied fs by simp [migrateLoop, happ, hc]] at h
        exact ih h
      · simp [migrateLoop, happ, hc] at h
    | none =>
      by_cases he : execr n = 0
      · by_cases hi : insr n = 0
        · simp [migrateLoop, happ, he, hi] at h
          rcases h with rfl | h
          · exact happ
          · exact ih h
        · simp [migrateLoop, happ, he, hi] at h
          rw [h]
          exact happ
      · simp [migrateLoop, happ, he] at h
        rw [h]
        exact happ

theorem migrateLoop_executed_mem (execr insr : String → Nat)
    (applied : String → Option String) (fs : List (String × String)) (m : String)
    (h : m ∈ (migrateLoop execr insr applied fs).executed) : m ∈ fs.map Prod.fst := by
  induction fs with
  | nil => simp [migrateLoop] at h
  | cons nc fs ih =>
    obtain ⟨n, c⟩ := nc
    cases happ : applied n with
    | some c0 =>
      by_cases hc : c0 = c
      · rw [show migrateLoop execr insr applied ((n, c) :: fs)
            = migrateLoop execr insr applied fs by simp [migrateLoop, happ, hc]] at h
        exact List.mem_cons_of_mem _ (ih h)
      · simp [migrateLoop, happ, hc] at h
    | none =>
      by_cases he : execr n = 0
      · by_cases hi : insr n = 0
        · simp [migrateLoop, happ, he, hi] at h
          rcases h with rfl | h
          · exact List.mem_cons_self _ _
          · exact List.mem_cons_of_mem _ (ih h)
        · simp [migrateLoop, happ, he, hi] at h
          rw [h]
          exact List.mem_cons_self _ _
      · simp [migrateLoop, happ, he] at h
        rw [h]
        exact List.mem_cons_self _ _

theorem migrateLoop_inserted_mem (execr insr : String → Nat)
    (applied : String → Option String) (fs : List (String × String)) (p : String × String)
    (h : p ∈ (migrateLoop execr insr applied fs).inserted) : p ∈ fs := by
  induction fs with
  | nil => simp [migrateLoop] at h
  | cons nc fs ih =>
    obtain ⟨n, c⟩ := nc
    cases happ : applied n with
    | some c0 =>
      by_cases hc : c0 = c
      · rw [show migrateLoop execr insr applied ((n, c) :: fs)
            = migrateLoop execr insr applied fs by simp [migrateLoop, happ, hc]] at h
        exact List.mem_cons_of_mem _ (ih h)
      · simp [migrateLoop, happ, hc] at h
    | none =>
      by_cases he : execr n = 0
      · by_cases hi : insr n = 0
        · simp [migrateLoop, happ, he, hi] at h
          rcases h with rfl | h
          · exact List.mem_cons_self _ _
          · exact List.mem_cons_of_mem _ (ih h)
        · simp [migrateLoop, happ, he, hi] at h
      · simp [migrateLoop, happ, he] at h

theorem migrateLoop_code_zero_some (execr insr : String → Nat)
    (applied : String → Option String) (fs : List (String × String)) (n c c0 : String)
    (hcode : (migrateLoop execr insr applied fs).code = 0)
    (hmem : (n, c) ∈ fs) (ha : applied n = some c0) : c0 = c := by
  induction fs with
  | nil => simp at hmem
  | cons mc fs ih =>
    obtain ⟨m, cm⟩ := mc
    rcases List.mem_cons.mp hmem with heq | hmem'
    · cases heq
      by_cases hc : c0 = c
      · exact hc
      · exfalso
        simp [migrateLoop, ha, hc] at hcode
    · cases happ : applied m with
      | some cm0 =>
        by_cases hcm : cm0 = cm
        · have hcode' : (migrateLoop execr insr applied fs).code = 0 := by
            simpa [migrateLoop, happ, hcm] using hcode
          exact ih hcode' hmem'
        · exfalso
          simp [migrateLoop, happ, hcm] at hcode
      | none =>
        by_cases he : execr m = 0
        · by_cases hi : insr m = 0
          · have hcode' : (migrateLoop execr insr applied fs).code = 0 := by
              simpa [migrateLoop, happ, he, hi] using hcode
            exact ih hcode' hmem'
          · exfalso
            have h' := hcode
            simp [migrateLoop, happ, he, hi] at h'
        · exfalso
          have h' := hcode
          simp [migrateLoop, happ, he] at h'

theorem migrateLoop_code_zero_none (execr insr : String → Nat)
    (applied : String → Option String) (fs : List (String × String)) (n c : String)
    (hcode : (migrateLoop execr insr applied fs).code = 0)
    (hmem : (n, c) ∈ fs) (ha : applied n = none) :
    (n, c) ∈ (migrateLoop execr insr applied fs).inserted := by
  induction fs with
  | nil => simp at hmem
  | cons mc fs ih =>
    obtain ⟨m, cm⟩ := mc
    rcases List.mem_cons.mp hmem with heq | hmem'
    · cases heq
      by_cases he : execr n = 0
      · by_cases hi : insr n = 0
        · simp [migrateLoop, ha, he, hi]
        · exfalso
          have h' := hcode
          simp [migrateLoop, ha, he, hi] at h'
      · exfalso
        have h' := hcode
        simp [migrateLoop, ha, he] at h'
    · cases happ : applied m with
      | some cm0 =>
        by_cases hcm : cm0 = cm
        · have hstep : migrateLoop execr insr applied ((m, cm) :: fs)
              = migrateLoop execr insr applied fs := by
            simp [migrateLoop, happ, hcm]
          rw [hstep] at hcode ⊢
          exact ih hcode hmem'
        · exfalso
          simp [migrateLoop, happ, hcm] at hcode
      | none =>
        by_cases he : execr m = 0
        · by_cases hi : insr m = 0
          · have hcode' : (migrateLoop execr insr applied fs).code = 0 := by
              simpa [migrateLoop, happ, he, hi] using hcode
            have := ih hcode' hmem'
            simp [migrateLoop, happ, he, hi]
            exact Or.inr this
          · exfalso
            have h' := hcode
            simp [migrateLoop, happ, he, hi] at h'
        · exfalso
          have h' := hcode
          simp [migrateLoop, happ, he] at h'

theorem migrateLoop_all_applied (execr insr : String → Nat)
    (applied : String → Option String) (fs : List (String × String))
    (h : ∀ p ∈ fs, applied p.1 = some p.2) :
    migrateLoop execr insr applied fs = ⟨[], [], 0⟩ := by
  induction fs with
  | nil => rfl
  | cons nc fs ih =>
    obtain ⟨n, c⟩ := nc
    have hn : applied n = some c := h (n, c) (List.mem_cons_self _ _)
    simp [migrateLoop, hn, ih (fun p hp => h p (List.mem_cons_of_mem _ hp))]

theorem find?_append_first {α : Type} (p : α → Bool) (l1 l2 : List α) (a : α)
    (h : l1.find? p = some a) : (l1 ++ l2).find? p = some a := by
  induction l1 with
  | nil => simp at h
  | cons x l1 ih =>
    by_cases hx : p x = true
    · rw [List.find?_cons_of_pos _ hx] at h
      rw [List.cons_append, List.find?_cons_of_pos _ hx]
      exact h
    · rw [List.find?_cons_of_neg _ hx] at h
      rw [List.cons_append, List.find?_cons_of_neg _ hx]
      exact ih h

theorem find?_append_second {α : Type} (p : α → Bool) (l1 l2 : List α)
    (h : l1.find? p = none) : (l1 ++ l2).find? p = l2.find? p := by
  induction l1 with
  | nil => rfl
  | cons x l1 ih =>
    by_cases hx : p x = true
    · rw [List.find?_cons_of_pos _ hx] at h
      simp at h
    · rw [List.find?_cons_of_neg _ hx] at h
      rw [List.cons_append, List.find?_cons_of_neg _ hx]
      exact ih h

theorem lookupLedger_append_left (L1 L2 : Ledger) (n c : String)
    (h : lookupLedger L1 n = some c) : lookupLedger (L1 ++ L2) n = some c := by
  unfold lookupLedger at h ⊢
  obtain ⟨p, hp, hsnd⟩ := Option.map_eq_some'.mp h
  rw [find?_append_first _ _ _ _ hp, Option.map_some', hsnd]

theorem lookupLedger_append_right (L1 L2 : Ledger) (n : String)
    (h : lookupLedger L1 n = none) : lookupLedger (L1 ++ L2) n = lookupLedger L2 n := by
  unfold lookupLedger at h ⊢
  have hfind : L1.find? (fun p => p.1 == n) = none := by
    cases hf : L1.find? (fun p => p.1 == n) with
    | none => rfl
    | some p => rw [hf] at h; simp at h
  rw [find?_append_second _ _ _ hfind]

theorem nodup_keys_val_eq (fs : List (String × String))
    (hnd : (fs.map Prod.fst).Nodup) (n a b : String)
    (h1 : (n, a) ∈ fs) (h2 : (n, b) ∈ fs) : a = b := by
  induction fs with
  | nil => simp at h1
  | cons p fs ih =>
    obtain ⟨m, cm⟩ := p
    simp only [List.map_cons, List.nodup_cons] at hnd
    rcases List.mem_cons.mp h1 with he1 | h1'
    · rcases List.mem_cons.mp h2 with he2 | h2'
      · cases he1
        cases he2
        rfl
      · cases he1
        exact absurd (List.mem_map_of_mem Prod.fst h2') hnd.1
    · rcases List.mem_cons.mp h2 with he2 | h2'
      · cases he2
        exact absurd (List.mem_map_of_mem Prod.fst h1') hnd.1
      · exact ih hnd.2 h1' h2'

theorem lookupLedger_of_mem (L : Ledger) (fs : List (String × String))
    (hnd : (fs.map Prod.fst).Nodup) (hsub : ∀ p ∈ L, p ∈ fs) (n c : String)
    (hmem : (n, c) ∈ L) : lookupLedger L n = some c := by
  induction L with
  | nil => simp at hmem
  | cons p L ih =>
    obtain ⟨m, cm⟩ := p
    by_cases hm : m = n
    · subst hm
      unfold lookupLedger
      rw [List.find?_cons_of_pos _ (by simp)]
      have hpc : (m, cm) ∈ fs := hsub (m, cm) (List.mem_cons_self _ _)
      rcases List.mem_cons.mp hmem with he | h'
      · cases he
        rfl
      · have hc2 : (m, c) ∈ fs := hsub _ (List.mem_cons_of_mem _ h')
        have : cm = c := nodup_keys_val_eq fs hnd m cm c hpc hc2
        rw [Option.map_some']
        simp [this]
    · have hmem' : (n, c) ∈ L := by
        rcases List.mem_cons.mp hmem with he | h'
        · exfalso
          cases he
          exact hm rfl
        · exact h'
      unfold lookupLedger
      rw [List.find?_cons_of_neg _ (by simp [hm])]
      exact ih (fun q hq => hsub q (List.mem_cons_of_mem _ hq)) hmem'

/-! ## Claim theorems -/

/-- C1: the deletion gate `_allowed_delete_host_dir` returns true exactly
when the resolved path is equal to or nested under one of the allow-listed
bases (the default `~/dev/plsr/local/db`, `<root>/.plsr/data/mariadb`, the
configured `environments.<env>.data_dir`, `~/dev/plsr`), and `auto_stop`
deletes the data directory only when the gate passes, regardless of the
`keep_data`/`dry_run` flags and of the flavor. -/
theorem deletion_gate_allowlist (home root : AbsPath) (cfgDataDir : Option AbsPath)
    (hostDir : AbsPath) :
    (allowedDeleteHostDir home root cfgDataDir hostDir = true ↔
      ∃ b ∈ allowedDeleteBases home root cfgDataDir, b.isPrefixOf hostDir = true) ∧
    (∀ flavorIsDb keepData dryRun hostDirExists : Bool,
      autoStopDataAction flavorIsDb keepData dryRun hostDirExists
          (allowedDeleteHostDir home root cfgDataDir hostDir) = .deleted →
      ∃ b ∈ allowedDeleteBases home root cfgDataDir, b.isPrefixOf hostDir = true) := by
  have hgate : allowedDeleteHostDir home root cfgDataDir hostDir = true ↔
      ∃ b ∈ allowedDeleteBases home root cfgDataDir, b.isPrefixOf hostDir = true := by
    rw [allowedDeleteHostDir_eq]
    rw [Bool.or_eq_true, List.any_eq_true]
    constructor
    · rintro (⟨b, hb, hcond⟩ | hhome)
      · rcases Bool.or_eq_true_iff.mp hcond with heq | hpre
        · have heq' : hostDir = b := by simpa using heq
          refine ⟨b, ?_, heq' ▸ isPrefixOf_self b⟩
          simp only [allowedDeleteBases, List.mem_append] at hb ⊢
          tauto
        · refine ⟨b, ?_, hpre⟩
          simp only [allowedDeleteBases, List.mem_append] at hb ⊢
          tauto
      · refine ⟨home ++ ["dev", "plsr"], ?_, hhome⟩
        simp [allowedDeleteBases]
    · rintro ⟨b, hb, hpre⟩
      by_cases hbh : b = home ++ ["dev", "plsr"]
      · exact Or.inr (hbh ▸ hpre)
      · refine Or.inl ⟨b, ?_, by rw [Bool.or_eq_true]; exact Or.inr hpre⟩
        simp only [allowedDeleteBases, List.mem_append, List.mem_singleton] at hb ⊢
        tauto
  exact ⟨hgate, fun _ _ _ _ h => hgate.mp (autoStopDataAction_deleted h)⟩

/-- Witness for C1: a path under `~/dev/plsr` passes the gate and is
deleted; the allow-list membership is exhibited. -/
theorem deletion_gate_allowlist_witness :
    autoStopDataAction true false false true
        (allowedDeleteHostDir ["", "home", "u"] ["", "srv"] none
          ["", "home", "u", "dev", "plsr", "db1"]) = .deleted ∧
    ∃ b ∈ allowedDeleteBases ["", "home", "u"] ["", "srv"] none,
      b.isPrefixOf ["", "home", "u", "dev", "plsr", "db1"] = true :=
  ⟨by decide,
   (deletion_gate_allowlist ["", "home", "u"] ["", "srv"] none
      ["", "home", "u", "dev", "plsr", "db1"]).2 true false false true (by decide)⟩

/-- C5: `_detect_flavor` evaluated at a config whose `service` block has no
`flavor` key, but where a later `other:` section carries `flavor: mariadb`.
Because the `(?ms)` block regex captures to the end of the file, the
resolver classifies the service as `db-mariadb`, contradicting the
explicit-only contract documented in `build.py` (and spec §4.2): the same
config without the later section is `python-app`, and the true service
block (`["  port: 8080"]`) has no flavor key at all. -/
theorem flavor_leak_eval :
    detectFlavor ["service:", "  port: 8080"] = "python-app" ∧
    detectFlavor ["service:", "  port: 8080", "other:", "  flavor: mariadb"] = "db-mariadb" ∧
    kvLookup "flavor" ["  port: 8080"] = none ∧
    extractBlock ["service:", "  port: 8080", "other:", "  flavor: mariadb"] "service"
      = ["  port: 8080", "other:", "  flavor: mariadb"] ∧
    detectFlavor ["DATABASE_URL: mysql://u:p@h:3306/db"] = "python-app" := by
  refine ⟨?_, ?_, ?_, ?_, ?_⟩ <;> decide

/-- C6: with no explicit mapping and the desired host port occupied,
`auto_run` fails under `PLSR_STRICT_PORT`; otherwise it uses the lowest
free port in `[desired+1, desired+51)` (reported via `.shifted`, which the
code accompanies with a warning naming the replacement), and fails — never
silently — when no port in that range is free. -/
theorem port_resolution_occupied (free : Nat → Bool) (hostPort m : Nat)
    (hocc : free hostPort = false) :
    resolveHostPort free false true hostPort = .strictFail ∧
    (hostPort + 1 ≤ m → m < hostPort + 51 → free m = true →
      (∀ q, hostPort + 1 ≤ q → q < m → free q = false) →
      resolveHostPort free false false hostPort = .shifted m) ∧
    ((∀ q, hostPort + 1 ≤ q → q < hostPort + 51 → free q = false) →
      resolveHostPort free false false hostPort = .noFreeFail) := by
  refine ⟨?_, ?_, ?_⟩
  · simp [resolveHostPort, hocc]
  · intro h1 h2 hm hbelow
    have : findFreePort free (hostPort + 1) 50 = some m := by
      unfold findFreePort
      exact findFreePortAux_eq_some free (max 1 50) (hostPort + 1) m h1 (by omega) hm hbelow
    simp [resolveHostPort, hocc, this]
  · intro h
    have : findFreePort free (hostPort + 1) 50 = none := by
      unfold findFreePort
      exact findFreePortAux_eq_none free (max 1 50) (hostPort + 1)
        (fun q hq1 hq2 => h q hq1 (by omega))
    simp [resolveHostPort, hocc, this]

/-- Witness for C6: port 8003 occupied, 8004 free: the resolver shifts to
8004, the lowest port above the desired one. -/
theorem port_resolution_occupied_witness :
    (fun p : Nat => p == 8004) 8003 = false ∧
    resolveHostPort (fun p : Nat => p == 8004) false false 8003 = .shifted 8004 :=
  ⟨by decide,
   (port_resolution_occupied (fun p : Nat => p == 8004) 8003 8004 (by decide)).2.1
     (Nat.le_refl _) (by omega) (by decide)
     (fun q hq1 hq2 => absurd hq2 (Nat.not_lt.mpr hq1))⟩

/-- C9: the pull-verification poll loop declares success the moment an
observed container status carries a non-empty `imageID` (no readiness or
running state is consulted — the observation type has none), and a waiting
reason in the terminal set stops the loop immediately with a definite
failure (exit code 1), regardless of any later observations. -/
theorem pullcheck_decides (pre post : List PollObs) (iid reason : String)
    (hpre : ∀ o ∈ pre, nondecidingObs o = true) :
    (iid ≠ "" → pullCheckLoop (pre ++ PollObs.status iid reason :: post) = .success) ∧
    (iid = "" → terminalReasons.contains (pyStrip reason) = true →
      pullCheckLoop (pre ++ PollObs.status iid reason :: post)
        = .terminalFailure (pyStrip reason) ∧
      pullResultCode (pullCheckLoop (pre ++ PollObs.status iid reason :: post)) = 1) := by
  rw [pullCheckLoop_append_nondeciding pre _ hpre]
  constructor
  · intro h
    simp [pullCheckLoop, h]
  · intro h hterm
    have hmem : pyStrip reason ∈ terminalReasons := by simpa using hterm
    simp [pullCheckLoop, h, hmem, pullResultCode]

/-- Witness for C9: a pending pod followed by a populated imageID succeeds
even though a terminal reason would come later; `ImagePullBackOff` stops
the loop before a later success observation. -/
theorem pullcheck_decides_witness :
    pullCheckLoop [.noPod, .status "" "ContainerCreating", .status "sha256:abc" "",
        .status "" "ErrImagePull"] = .success ∧
    pullCheckLoop [.noStatuses, .status "" "ImagePullBackOff", .status "sha256:xyz" ""]
      = .terminalFailure (pyStrip "ImagePullBackOff") :=
  ⟨(pullcheck_decides [.noPod, .status "" "ContainerCreating"] [.status "" "ErrImagePull"]
      "sha256:abc" "" (by decide)).1 (by decide),
   ((pullcheck_decides [.noStatuses] [.status "sha256:xyz" ""] "" "ImagePullBackOff"
      (by decide)).2 rfl (by decide)).1⟩

/-- C4 counterexample: the claimed single registry cascade (per-environment
key, then top-level key, then environment variables, then pattern scan)
does not describe the implemented resolvers.  With the `ECR` environment
variable set and a top-level `ECR:` key present, the claimed cascade
returns the config value, but `helm_release.py._ecr_root` returns the
environment variable (it checks environment variables first); and with
only the environment variable set, `run_local.py._discover_ecr_root`
returns nothing at all (it never reads environment variables) where the
claimed cascade returns the variable. -/
theorem registry_cascade_counterexample :
    claimedRegistryCascade (fun n => if n = "ECR" then some "env.example.com" else none)
        ["ECR: cfg.example.com"] "dev" = some "cfg.example.com" ∧
    ecrRootHelm (fun n => if n = "ECR" then some "env.example.com" else none)
        ["ECR: cfg.example.com"] = some "env.example.com" ∧
    claimedRegistryCascade (fun n => if n = "ECR" then some "env.example.com" else none)
        [] "dev" = some "env.example.com" ∧
    discoverEcrRoot [] "dev" = none := by
  refine ⟨?_, ?_, ?_, ?_⟩
  · decide
  · decide
  · decide
  · decide

/-- C4 (amended): registry-root resolution is per component rather than one
shared cascade.  `run_local.py._discover_ecr_root` resolves
`environments.<env>.ECR`, then top-level `ECR`, then the private and public
host patterns, and never consults environment variables (its type here has
no environment argument).  `helm_release.py._ecr_root` consults the
environment variables `ECR`/`ECR_URL`/`AWS_ECR`/`AWS_ECR_URL` first, then a
top-level `ECR:` line, then the host patterns, and never consults
`environments.<env>.ECR`.  `build.py` consults the top-level `ECR:` line
first, then the environment variables, then the host patterns.  Within
each resolver the first hit wins; in particular a per-environment override
beats a top-level key in the local-run resolver. -/
theorem registry_resolution_per_component (envv : EnvVars) (text : Cfg)
    (envName v : String) :
    (pyTruthy (kvLookup "ECR" (extractEnvBlock text envName)) = some v →
      discoverEcrRoot text envName = some (rstripSlash (pyStrip v))) ∧
    (pyTruthy (kvLookup "ECR" (extractEnvBlock text envName)) = none →
      pyTruthy (kvLookup "ECR" text) = some v →
      discoverEcrRoot text envName = some (rstripSlash (pyStrip v))) ∧
    (pyTruthy (kvLookup "ECR" (extractEnvBlock text envName)) = none →
      pyTruthy (kvLookup "ECR" text) = none →
      scanPrivHost text = some v →
      discoverEcrRoot text envName = some (rstripSlash (pyStrip v))) ∧
    (pyTruthy (kvLookup "ECR" (extractEnvBlock text envName)) = none →
      pyTruthy (kvLookup "ECR" text) = none →
      scanPrivHost text = none → scanPubHost text = some v →
      discoverEcrRoot text envName = some (rstripSlash (pyStrip v))) ∧
    (pyTruthy (kvLookup "ECR" (extractEnvBlock text envName)) = none →
      pyTruthy (kvLookup "ECR" text) = none →
      scanPrivHost text = none → scanPubHost text = none →
      discoverEcrRoot text envName = none) ∧
    (firstEnvVar envv ecrEnvVarNames = some v → ecrRootHelm envv text = some v) ∧
    (firstEnvVar envv ecrEnvVarNames = none →
      kvLookupLoose true "ECR" text = some v →
      ecrRootHelm envv text = some (rstripSlash v)) ∧
    (firstEnvVar envv ecrEnvVarNames = none →
      kvLookupLoose true "ECR" text = none →
      scanPrivHost text = some v →
      ecrRootHelm envv text = some (rstripSlash (pyStrip v))) ∧
    (pyTruthy ((kvLookupLoose true "ECR" text).map rstripSlash) = some v →
      buildEcr envv text = some v) ∧
    (pyTruthy ((kvLookupLoose true "ECR" text).map rstripSlash) = none →
      firstTruthyVar envv ecrEnvVarNames = some v →
      rstripSlash (pyStrip v) ≠ "" →
      buildEcr envv text = some (rstripSlash (pyStrip v))) := by
  refine ⟨?_, ?_, ?_, ?_, ?_, ?_, ?_, ?_, ?_, ?_⟩
  · intro h1
    simp [discoverEcrRoot, h1]
  · intro h1 h2
    simp [discoverEcrRoot, h1, h2]
  · intro h1 h2 h3
    simp [discoverEcrRoot, h1, h2, h3]
  · intro h1 h2 h3 h4
    simp [discoverEcrRoot, h1, h2, h3, h4]
  · intro h1 h2 h3 h4
    simp [discoverEcrRoot, h1, h2, h3, h4]
  · intro h1
    simp [ecrRootHelm, h1]
  · intro h1 h2
    simp [ecrRootHelm, h1, h2]
  · intro h1 h2 h3
    simp [ecrRootHelm, h1, h2, h3]
  · intro h1
    have ha := pyTruthy_eq_some h1
    simp only [buildEcr, h1, ha.1]
    simp [pyTruthy, ha.2]
  · intro h1 h2 h3
    simp only [buildEcr, h1, h2]
    simp [pyTruthy, h3]

/-- Witness for C4: the per-environment override wins in the local-run
resolver, and a set environment variable wins in the helm resolver. -/
theorem registry_resolution_witness :
    pyTruthy (kvLookup "ECR"
        (extractEnvBlock ["environments:", "  dev:", "    ECR: per.env.example",
          "ECR: top.example"] "dev")) = some "per.env.example" ∧
    discoverEcrRoot ["environments:", "  dev:", "    ECR: per.env.example", "ECR: top.example"]
        "dev" = some (rstripSlash (pyStrip "per.env.example")) ∧
    firstEnvVar (fun n => if n = "ECR" then some "env.example.com" else none) ecrEnvVarNames
      = some "env.example.com" ∧
    ecrRootHelm (fun n => if n = "ECR" then some "env.example.com" else none)
        ["ECR: top.example"] = some "env.example.com" :=
  ⟨by decide,
   (registry_resolution_per_component (fun _ => none)
      ["environments:", "  dev:", "    ECR: per.env.example", "ECR: top.example"]
      "dev" "per.env.example").1 (by decide),
   by decide,
   (registry_resolution_per_component (fun n => if n = "ECR" then some "env.example.com" else none)
      ["ECR: top.example"] "dev" "env.example.com").2.2.2.2.2.1 (by decide)⟩

/-- C7: the effective DATABASE_URL for `migrate` is resolved by a
first-non-empty-wins cascade — the `DATABASE_URL` environment variable
(non-empty after strip), the per-environment dotenv map, the
`environments.<env>` block, the `default` block, the top-level key — and
when every source is empty `migrate` returns configuration-error exit code
2 instead of raising. -/
theorem db_url_cascade (envv : EnvVars) (dotenv : String → Option String)
    (text : Cfg) (envName : String) :
    (∀ ev, envv "DATABASE_URL" = some ev → pyStrip ev ≠ "" →
      dbUrlFromConfig envv dotenv text envName = some (pyStrip ev)) ∧
    ((∀ ev, envv "DATABASE_URL" = some ev → pyStrip ev = "") →
      ∀ d, dotenv "DATABASE_URL" = some d → d ≠ "" →
      dbUrlFromConfig envv dotenv text envName = some (pyStrip d)) ∧
    ((∀ ev, envv "DATABASE_URL" = some ev → pyStrip ev = "") →
      (∀ d, dotenv "DATABASE_URL" = some d → d = "") →
      ∀ u, pyTruthy (kvLookup "DATABASE_URL" (extractEnvBlock text envName)) = some u →
      dbUrlFromConfig envv dotenv text envName = some (pyStrip u)) ∧
    ((∀ ev, envv "DATABASE_URL" = some ev → pyStrip ev = "") →
      (∀ d, dotenv "DATABASE_URL" = some d → d = "") →
      pyTruthy (kvLookup "DATABASE_URL" (extractEnvBlock text envName)) = none →
      ∀ w, pyTruthy (kvLookup "DATABASE_URL" (extractBlock text "default")) = some w →
      dbUrlFromConfig envv dotenv text envName = some (pyStrip w)) ∧
    ((∀ ev, envv "DATABASE_URL" = some ev → pyStrip ev = "") →
      (∀ d, dotenv "DATABASE_URL" = some d → d = "") →
      pyTruthy (kvLookup "DATABASE_URL" (extractEnvBlock text envName)) = none →
      pyTruthy (kvLookup "DATABASE_URL" (extractBlock text "default")) = none →
      ∀ t, pyTruthy (kvLookup "DATABASE_URL" text) = some t →
      dbUrlFromConfig envv dotenv text envName = some (pyStrip t)) ∧
    ((∀ ev, envv "DATABASE_URL" = some ev → pyStrip ev = "") →
      (∀ d, dotenv "DATABASE_URL" = some d → d = "") →
      pyTruthy (kvLookup "DATABASE_URL" (extractEnvBlock text envName)) = none →
      pyTruthy (kvLookup "DATABASE_URL" (extractBlock text "default")) = none →
      pyTruthy (kvLookup "DATABASE_URL" text) = none →
      dbUrlFromConfig envv dotenv text envName = none ∧
      migrateResolveUrl envv dotenv text envName = .error 2) := by
  have henv : (∀ ev, envv "DATABASE_URL" = some ev → pyStrip ev = "") →
      dbUrlStageEnv envv = none := by
    intro hdead
    unfold dbUrlStageEnv
    cases hv : envv "DATABASE_URL" with
    | none => rfl
    | some ev => simp [hdead ev hv]
  have hdot : (∀ d, dotenv "DATABASE_URL" = some d → d = "") →
      dbUrlStageDotenv dotenv = none := by
    intro hdead
    unfold dbUrlStageDotenv
    cases hv : dotenv "DATABASE_URL" with
    | none => rfl
    | some d => simp [hdead d hv]
  have hblkSome : ∀ u, pyTruthy (kvLookup "DATABASE_URL" (extractEnvBlock text envName)) = some u →
      dbUrlStageEnvBlock text envName = some (pyStrip u) := by
    intro u hu
    have hne : extractEnvBlock text envName ≠ [] := by
      intro hnil
      rw [hnil] at hu
      simp [kvLookup, pyTruthy] at hu
    simp [dbUrlStageEnvBlock, hne, hu]
  have hblkNone : pyTruthy (kvLookup "DATABASE_URL" (extractEnvBlock text envName)) = none →
      dbUrlStageEnvBlock text envName = none := by
    intro h
    unfold dbUrlStageEnvBlock
    by_cases hne : extractEnvBlock text envName = []
    · simp [hne]
    · simp [hne, h]
  refine ⟨?_, ?_, ?_, ?_, ?_, ?_⟩
  · intro ev hev hne
    simp [dbUrlFromConfig, dbUrlStageEnv, hev, hne]
  · intro hd1 d hdv hne
    simp [dbUrlFromConfig, henv hd1, dbUrlStageDotenv, hdv, hne]
  · intro hd1 hd2 u hu
    simp [dbUrlFromConfig, henv hd1, hdot hd2, hblkSome u hu]
  · intro hd1 hd2 h3 w hw
    simp [dbUrlFromConfig, henv hd1, hdot hd2, hblkNone h3, dbUrlStageDefault, hw]
  · intro hd1 hd2 h3 h4 t ht
    simp [dbUrlFromConfig, henv hd1, hdot hd2, hblkNone h3, dbUrlStageDefault, h4,
      dbUrlStageTop, ht]
  · intro hd1 hd2 h3 h4 h5
    have hnone : dbUrlFromConfig envv dotenv text envName = none := by
      simp [dbUrlFromConfig, henv hd1, hdot hd2, hblkNone h3, dbUrlStageDefault, h4,
        dbUrlStageTop, h5]
    exact ⟨hnone, by simp [migrateResolveUrl, hnone]⟩

/-- Witness for C7: the `environments.dev` block wins over the `default`
block when the environment variable and dotenv sources are absent, and an
entirely empty configuration yields exit code 2. -/
theorem db_url_cascade_witness :
    pyTruthy (kvLookup "DATABASE_URL"
        (extractEnvBlock ["environments:", "  dev:", "    DATABASE_URL: mysql://u:p@h:3306/d1",
          "default:", "  DATABASE_URL: mysql://u:p@h:3306/d0"] "dev"))
      = some "mysql://u:p@h:3306/d1" ∧
    dbUrlFromConfig (fun _ => none) (fun _ => none)
        ["environments:", "  dev:", "    DATABASE_URL: mysql://u:p@h:3306/d1",
          "default:", "  DATABASE_URL: mysql://u:p@h:3306/d0"] "dev"
      = some (pyStrip "mysql://u:p@h:3306/d1") ∧
    migrateResolveUrl (fun _ => none) (fun _ => none) [] "dev" = .error 2 :=
  ⟨by decide,
   (db_url_cascade (fun _ => none) (fun _ => none)
      ["environments:", "  dev:", "    DATABASE_URL: mysql://u:p@h:3306/d1",
        "default:", "  DATABASE_URL: mysql://u:p@h:3306/d0"] "dev").2.2.1
     (fun ev h => nomatch h) (fun d h => nomatch h) "mysql://u:p@h:3306/d1" (by decide),
   ((db_url_cascade (fun _ => none) (fun _ => none) [] "dev").2.2.2.2.2
     (fun ev h => nomatch h) (fun d h => nomatch h) (by decide) (by decide) (by decide)).2⟩

/-- C8 counterexample: the claimed identity cascade (config keys, otherwise
manifest, otherwise directory basename) is implemented nowhere.  With no
config keys and a manifest declaring `name = "manif"`, `version = "9.9.9"`,
the claimed cascade yields the manifest values, but the resolver used by
docker run/stop and helm release (`_name_version`) yields the directory
basename and `"0.0.0"` — the manifest is never consulted there. -/
theorem name_version_cascade_counterexample :
    claimedNameVersion [] (some ⟨"manif", "9.9.9", "", ""⟩) "dirbase" = ("manif", "9.9.9") ∧
    nameVersionFromCfg [] "dirbase" = ("dirbase", "0.0.0") ∧
    readAppMetadata (some ⟨"manif", "9.9.9", "", ""⟩) "dirbase" = ("manif", "9.9.9") ∧
    nameVersionFromCfg [] "dirbase"
      ≠ claimedNameVersion [] (some ⟨"manif", "9.9.9", "", ""⟩) "dirbase" := by
  refine ⟨?_, ?_, ?_, ?_⟩
  · decide
  · decide
  · decide
  · decide

/-- C8 (amended): identity resolution is two independent two-level
cascades.  Docker run/stop and helm release use top-level config keys with
fallback to the directory basename and `"0.0.0"` (no manifest); `plsr
start` uses the manifest's `project` fields, then `poetry` fields, then the
directory basename and `"0.0.0"` (no config keys). -/
theorem name_version_resolution (text : Cfg) (rootName dirName v : String) (p : PyProject) :
    (pyTruthy (kvLookup "name" text) = some v → (nameVersionFromCfg text rootName).1 = v) ∧
    (pyTruthy (kvLookup "name" text) = none → (nameVersionFromCfg text rootName).1 = rootName) ∧
    (pyTruthy (kvLookup "version" text) = some v → (nameVersionFromCfg text rootName).2 = v) ∧
    (pyTruthy (kvLookup "version" text) = none →
      (nameVersionFromCfg text rootName).2 = "0.0.0") ∧
    (p.projectName ≠ "" → (readAppMetadata (some p) dirName).1 = p.projectName) ∧
    (p.projectName = "" → p.poetryName ≠ "" →
      (readAppMetadata (some p) dirName).1 = p.poetryName) ∧
    (p.projectName = "" → p.poetryName = "" → (readAppMetadata (some p) dirName).1 = dirName) ∧
    (p.projectVersion ≠ "" → (readAppMetadata (some p) dirName).2 = p.projectVersion) ∧
    (p.projectVersion = "" → p.poetryVersion ≠ "" →
      (readAppMetadata (some p) dirName).2 = p.poetryVersion) ∧
    (p.projectVersion = "" → p.poetryVersion = "" →
      (readAppMetadata (some p) dirName).2 = "0.0.0") ∧
    readAppMetadata none dirName = (dirName, "0.0.0") := by
  refine ⟨?_, ?_, ?_, ?_, ?_, ?_, ?_, ?_, ?_, ?_, ?_⟩
  · intro h; simp [nameVersionFromCfg, h]
  · intro h; simp [nameVersionFromCfg, h]
  · intro h; simp [nameVersionFromCfg, h]
  · intro h; simp [nameVersionFromCfg, h]
  · intro h; simp [readAppMetadata, pyOr, h]
  · intro h1 h2; simp [readAppMetadata, pyOr, h1, h2]
  · intro h1 h2; simp [readAppMetadata, pyOr, h1, h2]
  · intro h; simp [readAppMetadata, pyOr, h]
  · intro h1 h2; simp [readAppMetadata, pyOr, h1, h2]
  · intro h1 h2; simp [readAppMetadata, pyOr, h1, h2]
  · simp [readAppMetadata, pyOr]

/-- Witness for C8: a config key wins for the run/helm resolver; a poetry
name fills in for a missing `project.name` in the start resolver. -/
theorem name_version_resolution_witness :
    pyTruthy (kvLookup "name" ["name: billing", "version: 1.2.0"]) = some "billing" ∧
    (nameVersionFromCfg ["name: billing", "version: 1.2.0"] "dirbase").1 = "billing" ∧
    (readAppMetadata (some ⟨"", "", "po", "0.1"⟩) "dirbase").1 = "po" :=
  ⟨by decide,
   (name_version_resolution ["name: billing", "version: 1.2.0"] "dirbase" "dirbase" "billing"
      ⟨"", "", "", ""⟩).1 (by decide),
   ((name_version_resolution [] "dirbase" "dirbase" "x" ⟨"", "", "po", "0.1"⟩).2.2.2.2.2.1
      rfl (by decide))⟩

/-- C10 counterexample: with a config whose `dev` block carries a bare
`password:` key (no `root:` sub-block), neither `environments.<env>.root_pw`
nor `dev.root.password` is present, yet the local-run resolver uses that
password for the database container instead of the claimed `"Password1"`
default: `_dev_root_password` falls back to searching the whole `dev`
block. -/
theorem root_password_default_counterexample :
    kvLookup "root_pw" (extractEnvBlock ["dev:", "  password: hunter2"] "local") = none ∧
    extractBlock (extractBlock ["dev:", "  password: hunter2"] "dev") "root" = [] ∧
    autoRunRootPw ["dev:", "  password: hunter2"] "local" = "hunter2" ∧
    rootPasswordMigrate ["dev:", "  password: hunter2"] "local" = "Password1" := by
  refine ⟨?_, ?_, ?_, ?_⟩
  · decide
  · decide
  · decide
  · decide

/-- C10 (amended): when neither `environments.<env>.root_pw` nor
`dev.root.password` yields a truthy value, the migration resolver and the
helm values resolver default to `"Password1"`; the local-run resolver does
so too provided its wider legacy fallback (`password:` anywhere in the
`dev` block when no `root:` sub-block exists) also finds nothing. -/
theorem root_password_default (text : Cfg) (envName : String)
    (h1 : pyTruthy (kvLookup "root_pw" (extractEnvBlock text envName)) = none)
    (h2 : pyTruthy (kvLookup "password" (extractBlock (extractBlock text "dev") "root")) = none) :
    rootPasswordMigrate text envName = "Password1" ∧
    dbEnvRootPwHelm text envName = "Password1" ∧
    (pyTruthy (devRootPassword text) = none → autoRunRootPw text envName = "Password1") := by
  have pyTruthy_none : pyTruthy none = none := rfl
  refine ⟨?_, ?_, ?_⟩
  · unfold rootPasswordMigrate
    by_cases hb : extractEnvBlock text envName = []
    · by_cases hd : extractBlock text "dev" = []
      · simp [hb, hd, pyTruthy_none, kvLookup_nil]
      · simp [hb, hd, pyTruthy_none, kvLookup_nil, h2]
    · by_cases hd : extractBlock text "dev" = []
      · simp [hb, hd, h1, pyTruthy_none, kvLookup_nil]
      · simp [hb, hd, h1, h2, pyTruthy_none, kvLookup_nil]
  · have h1' : pyTruthy (kvLookup "root_pw"
        (extractBlock (extractBlock text "environments") envName)) = none := h1
    unfold dbEnvRootPwHelm
    by_cases he : extractBlock text "environments" = []
    · by_cases hd : extractBlock text "dev" = []
      · simp [he, hd, pyTruthy_none, kvLookup_nil]
      · have h2' : pyTruthy (kvLookup "password"
            (extractBlock (extractBlock text "dev") "root")) = none := h2
        simp [he, hd, pyTruthy_none, kvLookup_nil, h2']
    · by_cases hd : extractBlock text "dev" = []
      · simp [he, hd, h1', pyTruthy_none, kvLookup_nil]
      · simp [he, hd, h1', h2, pyTruthy_none, kvLookup_nil]
  · intro h3
    unfold autoRunRootPw
    have henv : envRootPassword text envName = none := by
      unfold envRootPassword
      by_cases hb : extractEnvBlock text envName = []
      · rw [if_pos hb]
      · rw [if_neg hb]
        rcases pyTruthy_eq_none h1 with hk | hk
        · simp [hk]
        · simp [hk]
    simp [henv, h3, pyTruthy_none]

/-- C2: when the per-file loop of `migrate` reaches a file whose name is in
the `_already_applied` snapshot with a different checksum, the run aborts
with exit code 1: the modified file's SQL is not executed, no file after it
(in the lexicographic order of `files`) is executed, and the ledger gains
exactly the rows from the files before it (the loop never updates or
deletes existing rows, so prior ledger rows are untouched). -/
theorem migrate_modified_checksum_aborts (execr insr : String → Nat)
    (applied : String → Option String) (pre post : List (String × String)) (n c c0 : String)
    (hpre : (migrateLoop execr insr applied pre).code = 0)
    (hledger : applied n = some c0) (hdiff : c0 ≠ c)
    (hnodup : ((pre ++ (n, c) :: post).map Prod.fst).Nodup) :
    (migrateLoop execr insr applied (pre ++ (n, c) :: post)).code = 1 ∧
    (migrateLoop execr insr applied (pre ++ (n, c) :: post)).executed
      = (migrateLoop execr insr applied pre).executed ∧
    (migrateLoop execr insr applied (pre ++ (n, c) :: post)).inserted
      = (migrateLoop execr insr applied pre).inserted ∧
    n ∉ (migrateLoop execr insr applied (pre ++ (n, c) :: post)).executed ∧
    ∀ m ∈ post.map Prod.fst,
      m ∉ (migrateLoop execr insr applied (pre ++ (n, c) :: post)).executed := by
  have htail : migrateLoop execr insr applied ((n, c) :: post) = ⟨[], [], 1⟩ := by
    simp [migrateLoop, hledger, hdiff]
  have happ := migrateLoop_append execr insr applied pre ((n, c) :: post) hpre
  rw [htail] at happ
  simp only [List.append_nil] at happ
  rw [happ]
  refine ⟨rfl, rfl, rfl, ?_, ?_⟩
  · intro hmem
    have := migrateLoop_executed_applied_none execr insr applied pre n hmem
    rw [hledger] at this
    exact Option.noConfusion this
  · intro m hm hmem
    have hmpre : m ∈ pre.map Prod.fst :=
      migrateLoop_executed_mem execr insr applied pre m hmem
    rw [List.map_append, List.nodup_append] at hnodup
    exact hnodup.2.2 hmpre (by simp at hm ⊢; exact Or.inr hm)

/-- Witness for C2: a directory whose first file was modified after being
recorded: the run aborts with exit code 1 before touching the second file. -/
theorem migrate_modified_checksum_aborts_witness :
    lookupLedger [("001_init.sql", "cafe")] "001_init.sql" = some "cafe" ∧
    "cafe" ≠ "beef" ∧
    (migrateLoop (fun _ => 0) (fun _ => 0) (lookupLedger [("001_init.sql", "cafe")])
        ([] ++ ("001_init.sql", "beef") :: [("002_add.sql", "aa")])).code = 1 :=
  ⟨by decide, by decide,
   (migrate_modified_checksum_aborts (fun _ => 0) (fun _ => 0)
      (lookupLedger [("001_init.sql", "cafe")]) [] [("002_add.sql", "aa")]
      "001_init.sql" "beef" "cafe" (by decide) (by decide) (by decide) (by decide)).1⟩

/-- C3: after a successful run over `files` starting from ledger `L0`, a
second run over the same unmodified files — whatever its SQL execution and
insert oracles would return — executes nothing, inserts nothing, and
returns exit code 0, leaving the ledger contents identical. -/
theorem migrate_second_run_noop (e1 i1 e2 i2 : String → Nat) (L0 : Ledger)
    (files : List (String × String))
    (hnodup : (files.map Prod.fst).Nodup)
    (h1 : (migrateLoop e1 i1 (lookupLedger L0) files).code = 0) :
    migrateLoop e2 i2
        (lookupLedger (L0 ++ (migrateLoop e1 i1 (lookupLedger L0) files).inserted)) files
      = ⟨[], [], 0⟩ ∧
    L0 ++ (migrateLoop e1 i1 (lookupLedger L0) files).inserted
        ++ (migrateLoop e2 i2
            (lookupLedger (L0 ++ (migrateLoop e1 i1 (lookupLedger L0) files).inserted))
            files).inserted
      = L0 ++ (migrateLoop e1 i1 (lookupLedger L0) files).inserted := by
  have key : ∀ p ∈ files,
      lookupLedger (L0 ++ (migrateLoop e1 i1 (lookupLedger L0) files).inserted) p.1
        = some p.2 := by
    rintro ⟨n, c⟩ hp
    cases h0 : lookupLedger L0 n with
    | some c0 =>
      have hc0 : c0 = c :=
        migrateLoop_code_zero_some e1 i1 (lookupLedger L0) files n c c0 h1 hp h0
      exact lookupLedger_append_left L0 _ n c (hc0 ▸ h0)
    | none =>
      have hins : (n, c) ∈ (migrateLoop e1 i1 (lookupLedger L0) files).inserted :=
        migrateLoop_code_zero_none e1 i1 (lookupLedger L0) files n c h1 hp h0
      rw [lookupLedger_append_right L0 _ n h0]
      exact lookupLedger_of_mem _ files hnodup
        (fun q hq => migrateLoop_inserted_mem e1 i1 (lookupLedger L0) files q hq) n c hins
  have hrun2 := migrateLoop_all_applied e2 i2
    (lookupLedger (L0 ++ (migrateLoop e1 i1 (lookupLedger L0) files).inserted)) files key
  refine ⟨hrun2, ?_⟩
  rw [hrun2]
  simp

/-- Witness for C3: two fresh files applied from an empty ledger; the second
run (whose oracles would report failure if anything executed) is a no-op
with exit code 0 and an unchanged ledger. -/
theorem migrate_second_run_noop_witness :
    (([("001_init.sql", "c1"), ("002_add.sql", "c2")].map Prod.fst)).Nodup ∧
    (migrateLoop (fun _ => 0) (fun _ => 0) (lookupLedger [])
        [("001_init.sql", "c1"), ("002_add.sql", "c2")]).code = 0 ∧
    migrateLoop (fun _ => 1) (fun _ => 1)
        (lookupLedger ([] ++ (migrateLoop (fun _ => 0) (fun _ => 0) (lookupLedger [])
            [("001_init.sql", "c1"), ("002_add.sql", "c2")]).inserted))
        [("001_init.sql", "c1"), ("002_add.sql", "c2")] = ⟨[], [], 0⟩ :=
  ⟨by decide, by decide,
   (migrate_second_run_noop (fun _ => 0) (fun _ => 0) (fun _ => 1) (fun _ => 1) []
      [("001_init.sql", "c1"), ("002_add.sql", "c2")] (by decide) (by decide)).1⟩

/-- Witness for C10: the empty configuration has neither key and every
resolver yields the default password. -/
theorem root_password_default_witness :
    pyTruthy (kvLookup "root_pw" (extractEnvBlock [] "local")) = none ∧
    pyTruthy (kvLookup "password" (extractBlock (extractBlock [] "dev") "root")) = none ∧
    (rootPasswordMigrate [] "local" = "Password1" ∧
      dbEnvRootPwHelm [] "local" = "Password1" ∧
      (pyTruthy (devRootPassword []) = none → autoRunRootPw [] "local" = "Password1")) :=
  ⟨by decide, by decide, root_password_default [] "local" (by decide) (by decide)⟩

end Plsr
